import Mathlib

/-!
Verification of the yuki pay-period repository.

The definitions below are shallow embeddings of the Python scripts under
`scripts/`:
  * `parse_days_string`               — scripts/create-pay-period-templates-table.py, lines 139-146
  * `resolveEndDay`, `resolvePayoutDay`, `mkTemplate`, `resolveTemplates`
                                      — the template-migration loop of
                                        scripts/create-pay-period-templates-table.py, lines 389-500
  * `calculate_hours_pt`, `punch_hours_pt`, `total_hours_pt`
                                      — scripts/test_pay_period_totals.py
  * `calculate_hours_eh`, `punch_hours_eh`, `employee_total`, `employee_punch_count`
                                      — scripts/test_employee_hours.py
  * `fetch_punches`                   — the punch-paging loop of scripts/test_employee_hours.py
  * `filter_punches_by_time_cards`    — the time-card linkage filter of both aggregation scripts
  * `determine_relevance`             — scripts/debug_pay_periods.py, lines 72-87
  * `daysInMonth`, `nextMonth`, `addMonths`, `instantiate_template`
                                      — the Period Instantiator, which exists only in the
                                        specification (§4.3); modelled from the spec.

Machine reals (Python floats) are modelled as exact rationals; timestamps are
modelled as seconds-since-epoch rationals, with a `malformed` constructor for
strings `datetime.fromisoformat` rejects.
-/

/-! ## DayPattern parser -/

/-- Value of one decimal digit character, `Option.none` for a non-digit. -/
def digitVal (c : Char) : Option Nat :=
  if c.isDigit then some (c.toNat - 48) else Option.none

/-- Decimal value of a nonempty all-digit character list, `Option.none` otherwise. -/
def natOfDigits (cs : List Char) : Option Nat :=
  if cs = [] then Option.none
  else cs.foldl
    (fun acc c =>
      match acc, digitVal c with
      | some n, some d => some (n * 10 + d)
      | _, _ => Option.none)
    (some 0)

/-- Model of Python `int(s)` on an already-stripped character list: an optional
single sign followed by one or more digits.  (Exotic accepted forms such as
digit underscores or unicode digits are not modelled; no input in this
development uses them.) -/
def pyIntChars (cs : List Char) : Option Int :=
  match cs with
  | [] => Option.none
  | '+' :: rest => (natOfDigits rest).map Int.ofNat
  | '-' :: rest => (natOfDigits rest).map (fun n => -(n : Int))
  | _ => (natOfDigits cs).map Int.ofNat

/-- Model of Python `int(s)` on an already-stripped string. -/
def pyInt (s : String) : Option Int :=
  pyIntChars s.toList

/-- Model of Python `s.split(sep)` for a one-character separator:
`"".split(',') = ['']`, and separators delimit (possibly empty) groups. -/
def splitOnChar (sep : Char) : List Char → List (List Char)
  | [] => [[]]
  | c :: rest =>
    match splitOnChar sep rest with
    | [] => [[c]]
    | g :: gs => if c = sep then [] :: g :: gs else (c :: g) :: gs

/-- Model of Python `s.strip()`: drop whitespace from both ends. -/
def trimChars (cs : List Char) : List Char :=
  ((cs.dropWhile Char.isWhitespace).reverse.dropWhile Char.isWhitespace).reverse

/-- The stripped, nonempty tokens of the comma-separated input, mirroring
`days_str.split(',')` with the `if d.strip()` filter of the comprehension. -/
def day_tokens : Option String → List (List Char)
  | Option.none => []
  | some s =>
    if s = "" then []
    else ((splitOnChar ',' s.toList).map trimChars).filter (fun t => t ≠ [])

/-- Model of the list comprehension `[int(d.strip()) for d in ... if d.strip()]`
inside the `try`: the first token `int()` rejects aborts the whole list
(the `except` branch then returns `[]`). -/
def ints_of_tokens : List (List Char) → Option (List Int)
  | [] => some []
  | t :: ts =>
    match pyIntChars t, ints_of_tokens ts with
    | some n, some ns => some (n :: ns)
    | _, _ => Option.none

/-- Embedding of `parse_days_string` (create-pay-period-templates-table.py,
lines 139-146).  A `Option.none` argument models a Python `None` input; both it
and the empty string hit the `if not days_str` guard. -/
def parse_days_string (o : Option String) : List Int :=
  match ints_of_tokens (day_tokens o) with
  | some l => l
  | Option.none => []

/-- The parser the specification describes (claim C2): every non-numeric or
empty token is dropped individually and the numeric tokens are kept in order.
Used only to compare against the source behaviour. -/
def parse_days_string_claim (o : Option String) : List Int :=
  (day_tokens o).filterMap pyIntChars

/-! ## Template resolver -/

structure PayPeriodTemplate where
  period_number : Nat
  start_day : Int
  end_day : Int
  payout_day : String
  payout_month_offset : Int
  is_active : Bool
deriving DecidableEq, Repr

/-- Model of Python `min(l)` (partial on `[]`, where the loop never calls it). -/
def pyMin : List Int → Option Int
  | [] => Option.none
  | x :: xs => some (xs.foldl min x)

/-- End-day resolution for period index `i` with start day `start`: the inline
logic of create-pay-period-templates-table.py, lines 394-425.  The final
`| Option.none => endDays.head?` arm embeds the `else` branch
(`end_days[0] if end_days else None`), reachable only when `i` is out of range. -/
def resolveEndDay (endDays : List Int) (start : Int) (i : Nat) : Option Int :=
  match endDays.get? i with
  | some e =>
    if e ≥ start then some e
    else
      match endDays.find? (fun ed => decide (ed ≥ start)) with
      | some f => some f
      | Option.none => pyMin endDays
  | Option.none => endDays.head?

/-- Rendering of a resolved payout day: `1` is the "last day of month"
sentinel, anything else its decimal string. -/
def dayToPayoutString (d : Int) : String :=
  if d = 1 then "last" else toString d

/-- Payout-day resolution for period index `i`: the inline logic of
create-pay-period-templates-table.py, lines 435-452 (reversed index first,
then the direct-index fallback). -/
def resolvePayoutDay (payoutDays : List Int) (i : Nat) : Option String :=
  if payoutDays = [] then Option.none
  else
    let rev : Int := (payoutDays.length : Int) - 1 - (i : Int)
    let first : Option String :=
      if 0 ≤ rev ∧ rev < (payoutDays.length : Int) then
        (payoutDays.get? rev.toNat).map dayToPayoutString
      else Option.none
    match first with
    | some s => some s
    | Option.none =>
      if i < payoutDays.length then (payoutDays.get? i).map dayToPayoutString
      else Option.none

/-- One iteration of the template-migration loop (period index `i`, 0-based):
create-pay-period-templates-table.py, lines 391-500.  Returns `Option.none` exactly
when the loop prints "Could not determine end_day" and skips the period. -/
def mkTemplate (startDays endDays payoutDays : List Int) (i : Nat) : Option PayPeriodTemplate :=
  match startDays.get? i with
  | Option.none => Option.none
  | some start_day =>
    match resolveEndDay endDays start_day i with
    | Option.none => Option.none
    | some end_day =>
      let offset : Int := if end_day < start_day then 1 else 0
      match resolvePayoutDay payoutDays i with
      | some payout => some ⟨i + 1, start_day, end_day, payout, offset, true⟩
      | Option.none =>
        if end_day < start_day then some ⟨i + 1, start_day, end_day, "15", 1, true⟩
        else some ⟨i + 1, start_day, end_day, "last", 0, true⟩

/-- Embedding of the per-department template migration: the `if not start_days
or not end_days: skip` guard followed by the loop over
`range(min(len(start_days), len(end_days)))`. -/
def resolveTemplates (startDays endDays payoutDays : List Int) : List PayPeriodTemplate :=
  if startDays = [] ∨ endDays = [] then []
  else (List.range (min startDays.length endDays.length)).filterMap
    (mkTemplate startDays endDays payoutDays)

/-- End day as claim C6 states it: `endDays[i]` when it is `≥ start`, else the
first element `≥ start`, else `min(endDays)`.  Used only to compare against
the source behaviour. -/
def endDayClaim (start : Int) (endDays : List Int) (ei : Int) : Int :=
  if ei ≥ start then ei
  else
    match endDays.find? (fun ed => decide (ed ≥ start)) with
    | some f => f
    | Option.none => (pyMin endDays).getD 0

/-! ## Punch data model -/

/-- Loosely-typed Fillout record field: absent (`null`), a scalar string, or a
collection of linked-record ids. -/
inductive PyVal
  | null
  | str (s : String)
  | list (l : List String)
deriving DecidableEq, Repr

/-- Resolution of a linked-record field as both aggregation scripts perform it:
unwrap a nonempty collection, then discard any falsy result (Python `None`,
`""`, `[]`). -/
def resolve_ref : PyVal → Option String
  | PyVal.null => Option.none
  | PyVal.str s => if s = "" then Option.none else some s
  | PyVal.list [] => Option.none
  | PyVal.list (x :: _) => if x = "" then Option.none else some x

/-- Timestamp string as the aggregators see it: either one that
`datetime.fromisoformat` parses (modelled by its seconds-since-epoch value,
an exact rational) or a malformed one (the `except` branch of
`calculate_hours`). -/
inductive Timestamp
  | parseable (secs : ℚ)
  | malformed
deriving DecidableEq

/-- Punch record fields used by the aggregation scripts.  `duration` is the
optional precomputed hours field (numeric values only; a punch without a
numeric duration is modelled as `Option.none`). -/
structure Punch where
  employee_id : PyVal
  time_card_id : PyVal
  duration : Option ℚ
  punch_in_time : Option Timestamp
  punch_out_time : Option Timestamp
deriving DecidableEq

/-- Embedding of `calculate_hours` from test_pay_period_totals.py, lines 56-72:
guard against missing arguments, parse, difference in hours, then
`max(0.0, min(24.0, diff_hours))`; any parse failure yields `0.0`. -/
def calculate_hours_pt (tin tout : Option Timestamp) : ℚ :=
  match tin, tout with
  | some (Timestamp.parseable a), some (Timestamp.parseable b) =>
    max 0 (min 24 ((b - a) / 3600))
  | _, _ => 0

/-- Embedding of `calculate_hours` from test_employee_hours.py, lines 75-90:
same shape but the clamp is `max(0.0, hours)` only — no 24-hour cap. -/
def calculate_hours_eh (tin tout : Option Timestamp) : ℚ :=
  match tin, tout with
  | some (Timestamp.parseable a), some (Timestamp.parseable b) =>
    max 0 ((b - a) / 3600)
  | _, _ => 0

/-- Hours of the `punch_in_time`/`punch_out_time` branch of the per-punch loop
of test_pay_period_totals.py (lines 206-213): both fields must be truthy,
otherwise the punch contributes nothing. -/
def punch_time_hours_pt (p : Punch) : ℚ :=
  match p.punch_in_time, p.punch_out_time with
  | some a, some b => calculate_hours_pt (some a) (some b)
  | _, _ => 0

/-- Hours added for one punch by the totals loop of test_pay_period_totals.py,
lines 191-213: a truthy `duration` that converts to a positive float is used
directly (with no clamp); otherwise — including a zero or negative stored
duration — the punch-time branch runs. -/
def punch_hours_pt (p : Punch) : ℚ :=
  match p.duration with
  | some d => if 0 < d then d else punch_time_hours_pt p
  | Option.none => punch_time_hours_pt p

/-- Hours of the `elif punch_in and punch_out` branch of
test_employee_hours.py, lines 245-254. -/
def punch_time_hours_eh (p : Punch) : ℚ :=
  match p.punch_in_time, p.punch_out_time with
  | some a, some b => calculate_hours_eh (some a) (some b)
  | _, _ => 0

/-- Hours added for one punch by test_employee_hours.py, lines 245-254: a
truthy numeric `duration` is added as-is (even when negative); otherwise the
punch-time branch runs. -/
def punch_hours_eh (p : Punch) : ℚ :=
  match p.duration with
  | some d => if d ≠ 0 then d else punch_time_hours_eh p
  | Option.none => punch_time_hours_eh p

/-! ## Per-employee aggregation (test_employee_hours.py) -/

/-- Resolution of a punch's `employee_id` (test_employee_hours.py, lines
204-210): unwrap a collection, skip falsy results. -/
def resolve_employee (p : Punch) : Option String :=
  resolve_ref p.employee_id

/-- The punches grouped under employee `e` by the `employee_punches` dict of
test_employee_hours.py (insertion order preserved, so the group is the
subsequence of punches resolving to `e`). -/
def employee_punches (ps : List Punch) (e : String) : List Punch :=
  ps.filter (fun p => resolve_employee p = some e)

/-- `totalHours` reported for employee `e` (test_employee_hours.py, lines
241-262): the raw, unrounded sum of per-punch hours. -/
def employee_total (ps : List Punch) (e : String) : ℚ :=
  ((employee_punches ps e).map punch_hours_eh).sum

/-- `punchCount` reported for employee `e`. -/
def employee_punch_count (ps : List Punch) (e : String) : Nat :=
  (employee_punches ps e).length

/-! ## Per-period aggregation (test_pay_period_totals.py) -/

/-- Model of Python `round(x)` on an exact value: round half to even. -/
def pythonRound (q : ℚ) : Int :=
  let f := ⌊q⌋
  let frac := q - f
  if frac < 1 / 2 then f
  else if 1 / 2 < frac then f + 1
  else if f % 2 = 0 then f else f + 1

/-- The final `round(total_hours * 100) / 100` of test_pay_period_totals.py,
line 215. -/
def round2 (q : ℚ) : ℚ :=
  (pythonRound (q * 100) : ℚ) / 100

/-- `totalHours` of `calculate_pay_period_totals` for a list of already
filtered punches: the rounded sum of per-punch hours. -/
def total_hours_pt (ps : List Punch) : ℚ :=
  round2 ((ps.map punch_hours_pt).sum)

/-! ## Time-card linkage filter -/

/-- Whether a punch passes the time-card linkage filter: its resolved
`time_card_id` is a member of the period's time-card id set
(test_pay_period_totals.py lines 165-178; test_employee_hours.py lines
182-187). -/
def is_linked (tcIds : List String) (p : Punch) : Bool :=
  match resolve_ref p.time_card_id with
  | some t => tcIds.contains t
  | Option.none => false

/-- Embedding of the linkage-filter step of both aggregation scripts
(test_pay_period_totals.py lines 162-187; test_employee_hours.py lines
177-197).  Returns the punch list actually aggregated and a flag that is
`true` exactly when the "no punches linked to time cards, using all punches"
warning is emitted (the fallback path). -/
def filter_punches_by_time_cards (tcIds : List String) (allPunches : List Punch) :
    List Punch × Bool :=
  if tcIds = [] then (allPunches, false)
  else
    let linked := allPunches.filter (is_linked tcIds)
    if linked = [] then (allPunches, true) else (linked, false)

/-! ## Punch paging loop -/

/-- One page returned by the punch store: the records plus the `hasMore`
pagination flag.  A paging call that errors is the `Option.none` answer of the
store function. -/
structure PunchPage where
  records : List Punch
  hasMore : Bool
deriving DecidableEq

/-- Embedding of the punch-paging loop of test_employee_hours.py, lines
137-163: starting at `offset` with accumulator `acc`, stop on a store error
(`break` after `if not punches_response`), on an empty page, or when
`hasMore` is false; otherwise extend the accumulator and advance the offset by
the page limit 2000.  `fuel` bounds the number of iterations so the function
is total; every execution of the Python loop that terminates is reproduced by
a large enough fuel. -/
def fetch_punches_loop (store : Nat → Option PunchPage) :
    Nat → Nat → List Punch → List Punch
  | 0, _, acc => acc
  | fuel + 1, offset, acc =>
    match store offset with
    | Option.none => acc
    | some page =>
      if page.records = [] then acc
      else if page.hasMore then
        fetch_punches_loop store fuel (offset + 2000) (acc ++ page.records)
      else acc ++ page.records

/-- The punch list the aggregation run works from: the paging loop started at
offset 0 with an empty accumulator. -/
def fetch_punches (store : Nat → Option PunchPage) (fuel : Nat) : List Punch :=
  fetch_punches_loop store fuel 0 []

/-! ## Relevance classifier (debug_pay_periods.py) -/

/-- Calendar date as `parse_date` produces it (year, month, day). -/
structure PyDate where
  year : Int
  month : Int
  day : Int
deriving DecidableEq, Repr

/-- A `datetime` value at second granularity: the date plus the seconds within
the day, mirroring the `datetime(y, m, d, H, M, S)` constructions of
`determine_relevance`. -/
structure PyDateTime where
  year : Int
  month : Int
  day : Int
  sec : Int
deriving DecidableEq, Repr

/-- Lexicographic strict order on `datetime` values, as Python compares them. -/
@[reducible] def dtLt (a b : PyDateTime) : Prop :=
  a.year < b.year ∨ (a.year = b.year ∧ (a.month < b.month ∨ (a.month = b.month ∧
    (a.day < b.day ∨ (a.day = b.day ∧ a.sec < b.sec)))))

/-- Lexicographic order on `datetime` values. -/
@[reducible] def dtLe (a b : PyDateTime) : Prop :=
  dtLt a b ∨ a = b

/-- Lexicographic strict order on dates (claim side of C8: full-day
granularity). -/
@[reducible] def dateLt (a b : PyDate) : Prop :=
  a.year < b.year ∨ (a.year = b.year ∧ (a.month < b.month ∨ (a.month = b.month ∧
    a.day < b.day)))

/-- Lexicographic order on dates. -/
@[reducible] def dateLe (a b : PyDate) : Prop :=
  dateLt a b ∨ a = b

/-- Labels returned by `determine_relevance`. -/
inductive Relevance
  | current
  | upcoming
  | past
  | unknown
deriving DecidableEq, Repr

/-- Embedding of `determine_relevance` (debug_pay_periods.py, lines 72-87):
missing dates give `unknown`; otherwise the period start is normalised to
00:00:00, the end to 23:59:59 (86399 seconds) and today to 00:00:00, and the
label follows the `if today_normalized >= start and today_normalized <= end /
elif start > today_normalized / else` chain. -/
def determine_relevance (startDate endDate : Option PyDate) (today : PyDate) : Relevance :=
  match startDate, endDate with
  | some sd, some ed =>
    let s : PyDateTime := ⟨sd.year, sd.month, sd.day, 0⟩
    let e : PyDateTime := ⟨ed.year, ed.month, ed.day, 86399⟩
    let t : PyDateTime := ⟨today.year, today.month, today.day, 0⟩
    if dtLe s t ∧ dtLe t e then Relevance.current
    else if dtLt t s then Relevance.upcoming
    else Relevance.past
  | _, _ => Relevance.unknown

/-! ## Period instantiator (modelled from the spec) -/

/-- Modelled from the spec: the Period Instantiator of §4.3 is not part of the
repository sources; Gregorian leap-year rule (§4.3 "real calendar arithmetic
(leap years included)"). -/
def isLeapYear (y : Int) : Bool :=
  (y % 4 = 0 ∧ y % 100 ≠ 0) ∨ y % 400 = 0

/-- Modelled from the spec: number of days of month `m` of year `y`, used for
the "last day of month" sentinel and the overflow clamps of §4.3. -/
def daysInMonth (y m : Int) : Int :=
  if m = 2 then (if isLeapYear y then 29 else 28)
  else if m = 4 ∨ m = 6 ∨ m = 9 ∨ m = 11 then 30
  else 31

/-- Modelled from the spec: §4.3 "incrementing month past December rolls the
year forward". -/
def nextMonth : Int × Int → Int × Int
  | (y, m) => if m ≥ 12 then (y + 1, 1) else (y, m + 1)

/-- Modelled from the spec: month arithmetic iterating `nextMonth`. -/
def addMonths (ym : Int × Int) : Nat → Int × Int
  | 0 => ym
  | k + 1 => addMonths (nextMonth ym) k

/-- Concrete pay period produced by instantiation; `payoutDate` is
`Option.none` when the stored payout-day text is neither "last" nor numeric (a
case §4.3 leaves undefined). -/
structure PayPeriodDates where
  startDate : PyDate
  endDate : PyDate
  payoutDate : Option PyDate
deriving DecidableEq, Repr

/-- Modelled from the spec: the Period Instantiator of §4.3 for one template
and the anchor month `(y, m)`.  `startDate` is the anchor month's
`startDay`-th day; `endDate` stays in the anchor month when
`endDay ≥ startDay` and otherwise falls in the following month clamped to its
length; the payout month is the anchor month advanced by
`payoutMonthOffset` — the reading consistent with §3 ("0 = same month as
period end, 1 = following month"), the §8 examples and the worked examples in
the comments of create-pay-period-templates-table.py, lines 454-469 — and the
payout day resolves the "last" sentinel against that month's true length,
clamping a numeric day that overflows it. -/
def instantiate_template (t : PayPeriodTemplate) (y m : Int) : PayPeriodDates :=
  let startDate : PyDate := ⟨y, m, t.start_day⟩
  let endDate : PyDate :=
    if t.end_day ≥ t.start_day then ⟨y, m, t.end_day⟩
    else
      let ym2 := nextMonth (y, m)
      ⟨ym2.1, ym2.2, min t.end_day (daysInMonth ym2.1 ym2.2)⟩
  let pym := addMonths (y, m) t.payout_month_offset.toNat
  let payoutDate : Option PyDate :=
    if t.payout_day = "last" then some ⟨pym.1, pym.2, daysInMonth pym.1 pym.2⟩
    else (pyInt t.payout_day).map (fun d => ⟨pym.1, pym.2, min d (daysInMonth pym.1 pym.2)⟩)
  ⟨startDate, endDate, payoutDate⟩

/-! ## Shared helper lemmas -/

/-- The try/except comprehension of `parse_days_string` succeeds exactly when
every kept token is numeric, and then returns the same values a per-token
filter would. -/
theorem ints_of_tokens_eq (l : List (List Char)) :
    ints_of_tokens l =
      if l.all (fun t => (pyIntChars t).isSome) then some (l.filterMap pyIntChars)
      else Option.none := by
  induction l with
  | nil => simp [ints_of_tokens]
  | cons t ts ih =>
    cases ht : pyIntChars t with
    | none => simp [ints_of_tokens, ht, ih]
    | some n =>
      by_cases hall : ts.all (fun t => (pyIntChars t).isSome)
      · simp [ints_of_tokens, ht, ih, hall, List.filterMap_cons]
      · simp [ints_of_tokens, ht, ih, hall]

/-- Hours computed from punch times by test_pay_period_totals.py are never
negative. -/
theorem calc_pt_nonneg (tin tout : Option Timestamp) : 0 ≤ calculate_hours_pt tin tout := by
  unfold calculate_hours_pt
  split
  · exact le_max_left _ _
  · norm_num

/-- Hours computed from punch times by test_pay_period_totals.py never exceed
24. -/
theorem calc_pt_le (tin tout : Option Timestamp) : calculate_hours_pt tin tout ≤ 24 := by
  unfold calculate_hours_pt
  split
  · exact max_le (by norm_num) (min_le_left _ _)
  · norm_num

/-- Hours computed from punch times by test_employee_hours.py are never
negative. -/
theorem calc_eh_nonneg (tin tout : Option Timestamp) : 0 ≤ calculate_hours_eh tin tout := by
  unfold calculate_hours_eh
  split
  · exact le_max_left _ _
  · norm_num

/-- The punch-time branch of the pay-period-totals loop is non-negative. -/
theorem punch_time_pt_nonneg (p : Punch) : 0 ≤ punch_time_hours_pt p := by
  unfold punch_time_hours_pt
  split
  · exact calc_pt_nonneg _ _
  · norm_num

/-- Every per-punch value of the pay-period-totals loop is non-negative (a
stored duration is only used when positive). -/
theorem punch_hours_pt_nonneg (p : Punch) : 0 ≤ punch_hours_pt p := by
  rcases hp : p.duration with _ | d <;> simp [punch_hours_pt, hp]
  · exact punch_time_pt_nonneg p
  · split_ifs with h
    · linarith
    · exact punch_time_pt_nonneg p

/-- Rounding a non-negative value is non-negative. -/
theorem pythonRound_nonneg (q : ℚ) (h : 0 ≤ q) : 0 ≤ pythonRound q := by
  unfold pythonRound
  have hf : (0 : Int) ≤ ⌊q⌋ := Int.le_floor.mpr (by exact_mod_cast h)
  dsimp only
  split_ifs <;> omega

/-- Two-decimal rounding of a non-negative value is non-negative. -/
theorem round2_nonneg (q : ℚ) (h : 0 ≤ q) : 0 ≤ round2 q := by
  unfold round2
  apply div_nonneg _ (by norm_num)
  exact_mod_cast pythonRound_nonneg _ (mul_nonneg h (by norm_num))

/-- Floor of the half-integer 201/2. -/
theorem floor_201_half : ⌊(201 / 2 : ℚ)⌋ = 100 := by
  rw [Int.floor_eq_iff]
  norm_num

/-- Python banker's rounding sends 100.5 to the even integer 100. -/
theorem pythonRound_201_half : pythonRound ((201 / 200 : ℚ) * 100) = 100 := by
  have h : (201 / 200 : ℚ) * 100 = 201 / 2 := by norm_num
  rw [h]
  unfold pythonRound
  rw [floor_201_half]
  norm_num

/-- Two-decimal rounding of 1.005 under round-half-even gives 1. -/
theorem round2_1005 : round2 (201 / 200 : ℚ) = 1 := by
  unfold round2
  rw [pythonRound_201_half]
  norm_num

/-! ## Claim C1 -/

/-- C1: for the department configuration startDays="11,26", endDays="10,25",
payoutDays="15,1", the template resolver emits exactly two templates:
period 1 with start day 11, end day 25, payout day "last" and month offset 0,
and period 2 with start day 26, end day 10, payout day "15" and month
offset 1. -/
theorem C1_template_resolver_example :
    resolveTemplates (parse_days_string (some "11,26")) (parse_days_string (some "10,25"))
      (parse_days_string (some "15,1")) =
      [⟨1, 11, 25, "last", 0, true⟩, ⟨2, 26, 10, "15", 1, true⟩] := by
  decide

/-! ## Claim C2 -/

/-- C2 counterexample: on the input "5,abc,7" the source parser returns the
empty list — the non-numeric token "abc" aborts the whole comprehension — while
the claimed per-token dropping would return [5, 7]. -/
theorem C2_counterexample :
    parse_days_string (some "5,abc,7") = [] ∧
    parse_days_string_claim (some "5,abc,7") = [5, 7] ∧
    ([] : List Int) ≠ [5, 7] := by
  decide

/-- C2 amended: empty tokens are dropped individually, but a single
non-numeric token empties the whole result: the parser agrees with the
claimed per-token filter exactly when every kept token is numeric, and
returns the empty list otherwise.  Empty or null input still yields the empty
sequence. -/
theorem C2_amended_parse_behavior :
    ∀ o : Option String,
      parse_days_string o =
        if (day_tokens o).all (fun t => (pyIntChars t).isSome) then parse_days_string_claim o
        else [] := by
  intro o
  by_cases h : (day_tokens o).all (fun t => (pyIntChars t).isSome)
  · rw [if_pos h]
    unfold parse_days_string
    rw [ints_of_tokens_eq, if_pos h]
    rfl
  · rw [if_neg h]
    unfold parse_days_string
    rw [ints_of_tokens_eq, if_neg h]

/-! ## Claim C3 -/

/-- C3 counterexample: a store that answers the first page with one punch
(`hasMore = true`) and errors on the second paging call.  The aggregation does
not fail: the paging loop stops at the error and the run reports a non-empty
partial result computed from the page fetched before the error (employee "e1"
gets 2 hours). -/
theorem C3_counterexample :
    (fun o => if o = 0 then
        some (⟨[⟨PyVal.str "e1", PyVal.null, some 2, Option.none, Option.none⟩], true⟩ :
          PunchPage)
      else Option.none) 2000 = (Option.none : Option PunchPage) ∧
    fetch_punches
      (fun o => if o = 0 then
          some ⟨[⟨PyVal.str "e1", PyVal.null, some 2, Option.none, Option.none⟩], true⟩
        else Option.none) 5 =
      [⟨PyVal.str "e1", PyVal.null, some 2, Option.none, Option.none⟩] ∧
    employee_total [⟨PyVal.str "e1", PyVal.null, some 2, Option.none, Option.none⟩] "e1" = 2 ∧
    ([⟨PyVal.str "e1", PyVal.null, some 2, Option.none, Option.none⟩] : List Punch) ≠ [] := by
  refine ⟨rfl, ?_, ?_, by simp⟩
  · rfl
  · simp [employee_total, employee_punches, resolve_employee, resolve_ref, punch_hours_eh]

/-- C3 amended: a paging call that errors is not fatal — it stops the paging
loop, and the aggregation proceeds with exactly the punches of the pages
fetched before the error (here: the successful first page). -/
theorem C3_amended_paging_error_partial (store : Nat → Option PunchPage) (pg : PunchPage)
    (fuel : Nat) (h0 : store 0 = some pg) (hne : pg.records ≠ []) (hm : pg.hasMore = true)
    (h1 : store 2000 = Option.none) :
    fetch_punches store (fuel + 2) = pg.records := by
  simp [fetch_punches, fetch_punches_loop, h0, h1, hne, hm]

/-- Witness for C3 amended at a concrete two-page store. -/
theorem C3_amended_witness :
    fetch_punches
      (fun o => if o = 0 then
          some (⟨[⟨PyVal.str "e2", PyVal.null, some 3, Option.none, Option.none⟩], true⟩ :
            PunchPage)
        else Option.none) 2 =
      [⟨PyVal.str "e2", PyVal.null, some 3, Option.none, Option.none⟩] :=
  C3_amended_paging_error_partial
    (fun o => if o = 0 then
        some ⟨[⟨PyVal.str "e2", PyVal.null, some 3, Option.none, Option.none⟩], true⟩
      else Option.none)
    ⟨[⟨PyVal.str "e2", PyVal.null, some 3, Option.none, Option.none⟩], true⟩ 0 rfl
    (by simp) rfl rfl

/-! ## Claim C4 -/

/-- C4 counterexample: a punch with a stored duration of 100 hours.  Both
aggregators add the stored value unclamped — 100 lies outside [0, 24] — so not
every per-punch value added to a total is clamped to [0, 24]. -/
theorem C4_counterexample :
    punch_hours_pt ⟨PyVal.str "e1", PyVal.null, some 100, Option.none, Option.none⟩ = 100 ∧
    punch_hours_eh ⟨PyVal.str "e1", PyVal.null, some 100, Option.none, Option.none⟩ = 100 ∧
    employee_total [⟨PyVal.str "e1", PyVal.null, some 100, Option.none, Option.none⟩] "e1" =
      100 ∧
    ¬((100 : ℚ) ≤ 24) := by
  refine ⟨?_, ?_, ?_, by norm_num⟩
  · simp [punch_hours_pt, punch_time_hours_pt]
  · simp [punch_hours_eh, punch_time_hours_eh]
  · simp [employee_total, employee_punches, resolve_employee, resolve_ref,
      punch_hours_eh, punch_time_hours_eh]

/-- C4 amended: only the per-punch values computed from punchOutTime −
punchInTime are clamped — to [0, 24] by the pay-period-totals aggregator and
to [0, ∞) by the employee-hours aggregator; a stored positive duration is
added exactly as stored, with no clamp, by both aggregators. -/
theorem C4_amended_clamp :
    (∀ tin tout : Option Timestamp,
      0 ≤ calculate_hours_pt tin tout ∧ calculate_hours_pt tin tout ≤ 24 ∧
      0 ≤ calculate_hours_eh tin tout) ∧
    (∀ (p : Punch) (d : ℚ), p.duration = some d → 0 < d →
      punch_hours_pt p = d ∧ punch_hours_eh p = d) := by
  constructor
  · intro tin tout
    exact ⟨calc_pt_nonneg tin tout, calc_pt_le tin tout, calc_eh_nonneg tin tout⟩
  · intro p d hd hpos
    constructor
    · simp [punch_hours_pt, hd, hpos]
    · simp [punch_hours_eh, hd, ne_of_gt hpos]

/-- Witness for C4 amended at a punch with stored duration 3. -/
theorem C4_amended_witness :
    (0 : ℚ) < 3 ∧
    punch_hours_pt ⟨PyVal.str "w4", PyVal.null, some 3, Option.none, Option.none⟩ = 3 :=
  ⟨by norm_num,
    (C4_amended_clamp.2 ⟨PyVal.str "w4", PyVal.null, some 3, Option.none, Option.none⟩ 3 rfl
      (by norm_num)).1⟩

/-! ## Claim C5 -/

/-- C5 counterexample: the employee-hours aggregator reports raw sums.  A
punch with a stored duration of −5 yields a reported total of −5 (negative),
and a punch with duration 1.005 yields a reported total of 1.005, which is not
equal to its two-decimal rounding 1. -/
theorem C5_counterexample :
    employee_total [⟨PyVal.str "e1", PyVal.null, some (-5), Option.none, Option.none⟩] "e1" =
      -5 ∧
    ¬(0 ≤ (-5 : ℚ)) ∧
    employee_total [⟨PyVal.str "e1", PyVal.null, some (201 / 200), Option.none, Option.none⟩]
      "e1" = 201 / 200 ∧
    round2 (201 / 200) = 1 ∧ ((201 / 200 : ℚ) ≠ 1) := by
  refine ⟨?_, by norm_num, ?_, round2_1005, by norm_num⟩
  · simp [employee_total, employee_punches, resolve_employee, resolve_ref, punch_hours_eh]
  · simp [employee_total, employee_punches, resolve_employee, resolve_ref, punch_hours_eh]

/-- C5 amended: the per-period total of calculate_pay_period_totals is
non-negative and is exactly the two-decimal rounding of the sum of per-punch
hours, while the per-employee totals of the employee-hours script are the
raw, unrounded sums of per-punch hours. -/
theorem C5_amended_totals :
    ∀ ps : List Punch,
      0 ≤ total_hours_pt ps ∧
      total_hours_pt ps = round2 ((ps.map punch_hours_pt).sum) ∧
      ∀ e, employee_total ps e = ((employee_punches ps e).map punch_hours_eh).sum := by
  intro ps
  refine ⟨?_, rfl, fun e => rfl⟩
  unfold total_hours_pt
  apply round2_nonneg
  apply List.sum_nonneg
  intro x hx
  obtain ⟨p, hp, rfl⟩ := List.mem_map.mp hx
  exact punch_hours_pt_nonneg p

/-! ## Claim C6 -/

/-- C6: for every period index `i` in range with start day `startDays[i]`, the
resolver picks `endDays[i]` when it is ≥ the start day, otherwise the first
element of `endDays` (left to right) that is ≥ the start day, and otherwise
`min(endDays)`. -/
theorem C6_end_day_resolution (sd ed : List Int) (i : Nat) (h1 : i < sd.length)
    (h2 : i < ed.length) :
    resolveEndDay ed sd[i] i = some (endDayClaim sd[i] ed ed[i]) := by
  have hg : ed[i]? = some ed[i] := List.getElem?_eq_getElem h2
  have hm : ∃ m, pyMin ed = some m := by
    cases ed with
    | nil => simp at h2
    | cons a l => exact ⟨l.foldl min a, rfl⟩
  obtain ⟨m, hm⟩ := hm
  by_cases hge : sd[i] ≤ ed[i]
  · simp [resolveEndDay, endDayClaim, hg, hge]
  · cases hf : ed.find? (fun x => decide (sd[i] ≤ x)) with
    | none => simp [resolveEndDay, endDayClaim, hg, hge, hf, hm]
    | some f => simp [resolveEndDay, endDayClaim, hg, hge, hf]

/-- Witness for C6 at the configuration of claim C1, period index 1. -/
theorem C6_witness :
    resolveEndDay [10, 25] (([11, 26] : List Int)[1]) 1 =
      some (endDayClaim (([11, 26] : List Int)[1]) [10, 25] (([10, 25] : List Int)[1])) :=
  C6_end_day_resolution [11, 26] [10, 25] 1 (by decide) (by decide)

/-! ## Claim C7 -/

/-- C7: instantiating the month-spanning template (startDay 26, endDay 10,
payoutDay "15", payoutMonthOffset 1) — the second template the resolver
produces for the C1 configuration — for anchor month November 2025 yields
startDate 2025-11-26, endDate 2025-12-10 and payoutDate 2025-12-15; a
December anchor rolls the end date into January of the next year, month
increments past December always roll the year forward, and month lengths
follow the real (leap-year aware) calendar. -/
theorem C7_instantiation_november_2025 :
    instantiate_template ⟨2, 26, 10, "15", 1, true⟩ 2025 11 =
      ⟨⟨2025, 11, 26⟩, ⟨2025, 12, 10⟩, some ⟨2025, 12, 15⟩⟩ ∧
    (instantiate_template ⟨2, 26, 10, "15", 1, true⟩ 2025 12).endDate = ⟨2026, 1, 10⟩ ∧
    (∀ y : Int, nextMonth (y, 12) = (y + 1, 1)) ∧
    daysInMonth 2024 2 = 29 ∧ daysInMonth 2025 2 = 28 ∧
    daysInMonth 2000 2 = 29 ∧ daysInMonth 1900 2 = 28 ∧
    (resolveTemplates (parse_days_string (some "11,26")) (parse_days_string (some "10,25"))
      (parse_days_string (some "15,1"))).get? 1 = some ⟨2, 26, 10, "15", 1, true⟩ := by
  refine ⟨by decide, by decide, ?_, by decide, by decide, by decide, by decide, by decide⟩
  intro y
  simp [nextMonth]

/-! ## Claim C8 -/

/-- C8 counterexample: a degenerate pay period whose end date 2025-01-05
precedes its start date 2025-01-10, with today = 2025-01-07.  The end date is
strictly before today, so the claim requires the label "past", but the code
labels the period "upcoming". -/
theorem C8_counterexample :
    determine_relevance (some ⟨2025, 1, 10⟩) (some ⟨2025, 1, 5⟩) ⟨2025, 1, 7⟩ =
      Relevance.upcoming ∧
    dateLt ⟨2025, 1, 5⟩ ⟨2025, 1, 7⟩ ∧
    Relevance.upcoming ≠ Relevance.past := by
  decide

/-- C8 amended: for every pay period with both dates present whose start date
is not after its end date, the classifier labels it current exactly when
today lies in the inclusive day range, upcoming exactly when the start date is
after today, and past exactly when the end date is before today. -/
theorem C8_amended_relevance (sd ed td : PyDate) (h : dateLe sd ed) :
    (determine_relevance (some sd) (some ed) td = Relevance.current ↔
      (dateLe sd td ∧ dateLe td ed)) ∧
    (determine_relevance (some sd) (some ed) td = Relevance.upcoming ↔ dateLt td sd) ∧
    (determine_relevance (some sd) (some ed) td = Relevance.past ↔ dateLt ed td) := by
  obtain ⟨y1, m1, d1⟩ := sd
  obtain ⟨y2, m2, d2⟩ := ed
  obtain ⟨y3, m3, d3⟩ := td
  simp only [determine_relevance, dtLe, dtLt, dateLe, dateLt] at h ⊢
  split_ifs with h1 h2 <;>
    simp_all [PyDateTime.mk.injEq, PyDate.mk.injEq] <;> omega

/-- Witness for C8 amended: the period 2025-11-26 to 2025-12-10 is current on
2025-12-01. -/
theorem C8_amended_witness :
    determine_relevance (some ⟨2025, 11, 26⟩) (some ⟨2025, 12, 10⟩) ⟨2025, 12, 1⟩ =
      Relevance.current :=
  (C8_amended_relevance ⟨2025, 11, 26⟩ ⟨2025, 12, 10⟩ ⟨2025, 12, 1⟩ (by decide)).1.mpr
    (by decide)

/-! ## Claim C9 -/

/-- C9: whenever the period's time-card id set is non-empty, the linkage
filter keeps zero punches, and the retrieved in-range punch list is
non-empty, the aggregator falls back to all retrieved punches — so the
aggregated list is non-empty and every per-employee total equals the one
computed from all retrieved punches — and the fallback flag (the emitted
warning) is set. -/
theorem C9_linkage_fallback (tcIds : List String) (allPunches : List Punch)
    (h1 : tcIds ≠ []) (h2 : allPunches.filter (is_linked tcIds) = []) (h3 : allPunches ≠ []) :
    filter_punches_by_time_cards tcIds allPunches = (allPunches, true) ∧
    (filter_punches_by_time_cards tcIds allPunches).1 ≠ [] ∧
    ∀ e, employee_total (filter_punches_by_time_cards tcIds allPunches).1 e =
      employee_total allPunches e := by
  have key : filter_punches_by_time_cards tcIds allPunches = (allPunches, true) := by
    simp [filter_punches_by_time_cards, h1, h2]
  refine ⟨key, ?_, ?_⟩
  · rw [key]
    exact h3
  · intro e
    rw [key]

/-- Witness for C9: one unlinked punch against the time-card set ["tc1"]. -/
theorem C9_witness :
    filter_punches_by_time_cards ["tc1"]
      [⟨PyVal.str "e1", PyVal.null, some 1, Option.none, Option.none⟩] =
      ([⟨PyVal.str "e1", PyVal.null, some 1, Option.none, Option.none⟩], true) :=
  (C9_linkage_fallback ["tc1"]
    [⟨PyVal.str "e1", PyVal.null, some 1, Option.none, Option.none⟩]
    (by simp) (by decide) (by simp)).1

/-! ## Claim C10 -/

/-- C10: a punch whose employee_id is absent, the empty string, or an empty
collection is excluded entirely by the per-employee aggregator — it changes
no employee's totalHours and no employee's punchCount — while a punch with a
resolvable employee but no stored duration and no punch-out time is counted
in that employee's punchCount and contributes zero hours. -/
theorem C10_employee_id_exclusion (p : Punch)
    (h : p.employee_id = PyVal.null ∨ p.employee_id = PyVal.str "" ∨
      p.employee_id = PyVal.list []) :
    (∀ (e : String) (ps1 ps2 : List Punch),
      employee_total (ps1 ++ p :: ps2) e = employee_total (ps1 ++ ps2) e ∧
      employee_punch_count (ps1 ++ p :: ps2) e = employee_punch_count (ps1 ++ ps2) e) ∧
    (∀ (q : Punch) (e : String) (ps : List Punch),
      resolve_employee q = some e → q.duration = Option.none →
      q.punch_out_time = Option.none →
      employee_total (q :: ps) e = employee_total ps e ∧
      employee_punch_count (q :: ps) e = employee_punch_count ps e + 1) := by
  have hre : resolve_employee p = Option.none := by
    rcases h with h | h | h <;> simp [resolve_employee, resolve_ref, h]
  constructor
  · intro e ps1 ps2
    have hfil : employee_punches (ps1 ++ p :: ps2) e = employee_punches (ps1 ++ ps2) e := by
      simp [employee_punches, List.filter_append, List.filter_cons, hre]
    exact ⟨by simp [employee_total, hfil], by simp [employee_punch_count, hfil]⟩
  · intro q e ps hq hd hout
    have hzero : punch_hours_eh q = 0 := by
      cases hin : q.punch_in_time <;>
        simp [punch_hours_eh, punch_time_hours_eh, hd, hout, hin]
    have hfil : employee_punches (q :: ps) e = q :: employee_punches ps e := by
      simp [employee_punches, List.filter_cons, hq]
    exact ⟨by simp [employee_total, hfil, hzero], by simp [employee_punch_count, hfil]⟩

/-- Witness for C10 at a punch with a null employee_id. -/
theorem C10_witness :
    employee_total
      ([] ++ (⟨PyVal.null, PyVal.null, some 5, Option.none, Option.none⟩ : Punch) :: []) "e1" =
      employee_total ([] ++ []) "e1" :=
  ((C10_employee_id_exclusion ⟨PyVal.null, PyVal.null, some 5, Option.none, Option.none⟩
    (Or.inl rfl)).1 "e1" [] []).1
